import Mathlib

/-!
Shallow embedding of `packages/roon-kit/src/RoonExtension.ts`.

The facade class `RoonExtension` is modelled as a pure state machine: the
mutable instance fields become a Lean structure, each public method becomes a
function from state to `Except ExtError` of a new state (TypeScript `throw`
becomes `Except.error`), and the lifecycle callbacks registered with the
underlying Roon API client (`core_paired`, `core_unpaired`) become transition
functions invoked by the environment.  Observable side effects — events emitted
on the facade, calls into the status-publishing helper, console log lines and
calls to the underlying client's `init_services` — are recorded in the state as
append-only traces.

Opaque external values (core handles, websocket options, subscription
responses and bodies, extension descriptions) are represented by `Nat`.
-/

set_option autoImplicit false

/-- The `RoonServiceRequired` union type from RoonExtension.ts. -/
inductive RoonServiceRequired where
  | not_required
  | required
  | optional
deriving DecidableEq, Repr

/-- The `log_level` union type of `RoonExtensionOptions`: the literals
`none` and `all`. -/
inductive LogLevel where
  | none
  | all
deriving DecidableEq, Repr

/-- The `RoonExtensionOptions` interface.  Optional fields of the TypeScript
interface become `Option`-valued; `description` is an opaque handle. -/
structure RoonExtensionOptions where
  description : Nat
  log_level : Option LogLevel
  RoonApiBrowse : Option RoonServiceRequired
  RoonApiImage : Option RoonServiceRequired
  RoonApiTransport : Option RoonServiceRequired
  subscribe_outputs : Option Bool
  subscribe_zones : Option Bool
deriving DecidableEq, Repr

/-- A `Partial<RoonExtensionOptions>` value: every key may be absent (outer
`none`) or present with the value that would be stored (which, for optional
fields, may itself be `undefined`, the inner `none`). -/
structure PartialOptions where
  description : Option Nat
  log_level : Option (Option LogLevel)
  RoonApiBrowse : Option (Option RoonServiceRequired)
  RoonApiImage : Option (Option RoonServiceRequired)
  RoonApiTransport : Option (Option RoonServiceRequired)
  subscribe_outputs : Option (Option Bool)
  subscribe_zones : Option (Option Bool)
deriving DecidableEq, Repr

/-- `Object.assign(base, p)`: keys present in `p` overwrite, absent keys keep
the value from `base`. -/
def mergeOptions (base : RoonExtensionOptions) (p : PartialOptions) :
    RoonExtensionOptions :=
  { description := p.description.getD base.description
    log_level := p.log_level.getD base.log_level
    RoonApiBrowse := p.RoonApiBrowse.getD base.RoonApiBrowse
    RoonApiImage := p.RoonApiImage.getD base.RoonApiImage
    RoonApiTransport := p.RoonApiTransport.getD base.RoonApiTransport
    subscribe_outputs := p.subscribe_outputs.getD base.subscribe_outputs
    subscribe_zones := p.subscribe_zones.getD base.subscribe_zones }

/-- The three requestable sub-service classes (`RoonKit.RoonApiBrowse`,
`RoonKit.RoonApiImage`, `RoonKit.RoonApiTransport`). -/
inductive Svc where
  | RoonApiBrowse
  | RoonApiImage
  | RoonApiTransport
deriving DecidableEq, Repr

/-- A provided service: the facade's own `RoonApiStatus` instance, or an
arbitrary caller-supplied service (opaque handle). -/
inductive PSvc where
  | status
  | extra (id : Nat)
deriving DecidableEq, Repr

/-- The argument object handed to `this._api.init_services(...)` in
`initializeServices`. -/
structure InitArgs where
  required_services : List Svc
  optional_services : List Svc
  provided_services : List PSvc
deriving DecidableEq, Repr

/-- Modelled from the spec: `TransientObject` is imported from `./internals`,
which is not under src/.  Spec section 4.2 describes it as a resettable
single-value future, either `empty` (no core paired, a queue of waiters) or
`filled(core)` (a core is paired).  Waiters are identified by opaque ids. -/
inductive Slot where
  | empty (waiters : List Nat)
  | filled (core : Nat)
deriving DecidableEq, Repr

/-- The outcome of one `get_core()` call: a promise that is already resolved
with a core, or a still-pending promise identified by a fresh waiter id. -/
inductive GetCoreResult where
  | resolvedWith (core : Nat)
  | pending (waiter : Nat)
deriving DecidableEq, Repr

/-- Modelled from the spec: `TransientObject.getObject()`.  Spec section 4.2:
waiters registered after resolution receive the already-resolved value
immediately without suspension; on an empty slot the caller is queued.
`fresh` is the id given to a newly queued waiter. -/
def Slot.getObject : Slot → Nat → Slot × GetCoreResult
  | .filled c, _ => (.filled c, .resolvedWith c)
  | .empty ws, fresh => (.empty (ws ++ [fresh]), .pending fresh)

/-- Modelled from the spec: `TransientObject.resolve(core)`.  Spec section 4.2:
the transition `empty → filled(core)` wakes all queued waiters with that core.
Returns the new slot, the list of woken waiters, and the object the call
returns (the resolved core; on an already-filled slot the held core, the spec
defines no transition there). -/
def Slot.resolve : Slot → Nat → Slot × List Nat × Nat
  | .empty ws, c => (.filled c, ws, c)
  | .filled c0, _ => (.filled c0, [], c0)

/-- The facade's own event surface: the four typed events re-emitted to the
embedding application, with their payloads (opaque handles). -/
inductive FacadeEvent where
  | core_paired (core : Nat)
  | core_unpaired (core : Nat)
  | subscribe_outputs (core : Nat) (response : Nat) (body : Nat)
  | subscribe_zones (core : Nat) (response : Nat) (body : Nat)
deriving DecidableEq, Repr

/-- One line written to the process log by `set_status`: the info channel
(`console.log`) or the error channel (`console.error`). -/
inductive LogLine where
  | info (text : String)
  | err (text : String)
deriving DecidableEq, Repr

/-- The three synchronous caller-fault errors thrown by the facade. -/
inductive ExtError where
  | alreadyStarted
  | notStarted
  | updateAfterStart
deriving DecidableEq, Repr

/-- State of one `RoonExtension` instance together with its observable
effect traces.  `opts` is `this._options`; `slot` is `this._core` (absent
before discovery has started); `nextWaiter` supplies fresh waiter ids;
`resolutions` records which pending `get_core` promise was resolved with which
core; `events` is the ordered trace of facade events; `zonesSub` and
`outputsSub` list, per pairing, the core captured by the subscription callback
closure registered at that pairing; `statusCalls` records forwarded
`_status.set_status` calls; `log` the console lines; `initCalls` the
arguments of `_api.init_services` calls; `wsCalls` the `_api.ws_connect`
option objects. -/
structure RoonExtension where
  opts : RoonExtensionOptions
  slot : Option Slot
  nextWaiter : Nat
  resolutions : List (Nat × Nat)
  events : List FacadeEvent
  zonesSub : List Nat
  outputsSub : List Nat
  statusCalls : List (String × Bool)
  log : List LogLine
  initCalls : List InitArgs
  wsCalls : List Nat
deriving DecidableEq, Repr

/-- The `RoonExtension` constructor: copies the options and force-upgrades the
transport requirement to `required` when either subscription flag is truthy.
`this._core` starts unset; all traces start empty. -/
def construct (options : RoonExtensionOptions) : RoonExtension :=
  let hasSubscriptions :=
    options.subscribe_outputs = some true || options.subscribe_zones = some true
  let opts :=
    if hasSubscriptions then
      { options with RoonApiTransport := some RoonServiceRequired.required }
    else options
  { opts := opts, slot := none, nextWaiter := 0, resolutions := [], events := []
    zonesSub := [], outputsSub := [], statusCalls := [], log := []
    initCalls := [], wsCalls := [] }

/-- Private `instantiateCore`: throws if `this._core` is already set, else
creates a fresh empty `TransientObject`. -/
def instantiateCore (s : RoonExtension) : Except ExtError RoonExtension :=
  if s.slot.isSome then .error .alreadyStarted
  else .ok { s with slot := some (Slot.empty []) }

/-- Private `requireService`: pushes the service class onto the required or
optional list according to the setting; `undefined` and `not_required`
settings push nothing. -/
def requireService (setting : Option RoonServiceRequired) (svc : Svc)
    (required_services optional_services : List Svc) : List Svc × List Svc :=
  match setting with
  | none => (required_services, optional_services)
  | some RoonServiceRequired.required =>
      (required_services ++ [svc], optional_services)
  | some RoonServiceRequired.optional =>
      (required_services, optional_services ++ [svc])
  | some RoonServiceRequired.not_required =>
      (required_services, optional_services)

/-- Private `initializeServices`: appends `this._status` to the caller's
provided-services array, builds the required and optional lists from the three
per-service settings, and returns the object handed to
`this._api.init_services`. -/
def initializeServices (opts : RoonExtensionOptions)
    (provided_services : List PSvc) : InitArgs :=
  let provided_services := provided_services ++ [PSvc.status]
  let browse := requireService opts.RoonApiBrowse Svc.RoonApiBrowse [] []
  let image := requireService opts.RoonApiImage Svc.RoonApiImage browse.1 browse.2
  let transport :=
    requireService opts.RoonApiTransport Svc.RoonApiTransport image.1 image.2
  { required_services := transport.1, optional_services := transport.2
    provided_services := provided_services }

/-- `start_discovery(provided_services)`: one-shot via `instantiateCore`, then
`initializeServices`, then `this._api.start_discovery()` (the latter is an
external call with no facade-visible state). -/
def start_discovery (s : RoonExtension) (provided_services : List PSvc) :
    Except ExtError RoonExtension :=
  match instantiateCore s with
  | .error e => .error e
  | .ok s₁ =>
      let args := initializeServices s₁.opts provided_services
      .ok { s₁ with initCalls := s₁.initCalls ++ [args] }

/-- `ws_connect(options, provided_services)`: same one-shot initialization
sequence as `start_discovery`, then `this._api.ws_connect(options)`. -/
def ws_connect (s : RoonExtension) (options : Nat)
    (provided_services : List PSvc) : Except ExtError RoonExtension :=
  match instantiateCore s with
  | .error e => .error e
  | .ok s₁ =>
      let args := initializeServices s₁.opts provided_services
      .ok { s₁ with initCalls := s₁.initCalls ++ [args]
                    wsCalls := s₁.wsCalls ++ [options] }

/-- `update_options(options)`: throws if discovery has been started, else
merges via `Object.assign(this._options, options)`. -/
def update_options (s : RoonExtension) (p : PartialOptions) :
    Except ExtError RoonExtension :=
  if s.slot.isSome then .error .updateAfterStart
  else .ok { s with opts := mergeOptions s.opts p }

/-- Private `ensureStarted`: throws if `this._core` is unset. -/
def ensureStarted (s : RoonExtension) : Except ExtError Slot :=
  match s.slot with
  | none => .error .notStarted
  | some sl => .ok sl

/-- `get_core()`: `ensureStarted().getObject()`.  Returns the updated state
and the promise outcome. -/
def get_core (s : RoonExtension) : Except ExtError (RoonExtension × GetCoreResult) :=
  match ensureStarted s with
  | .error e => .error e
  | .ok sl =>
      let r := sl.getObject s.nextWaiter
      .ok ({ s with slot := some r.1, nextWaiter := s.nextWaiter + 1 }, r.2)

/-- `set_status(message, is_error)`: forwards to `this._status.set_status`
unconditionally, then writes one console line unless `log_level` is `none`:
the error channel when `is_error`, the info channel otherwise. -/
def set_status (s : RoonExtension) (message : String) (is_error : Bool) :
    RoonExtension :=
  let s₁ := { s with statusCalls := s.statusCalls ++ [(message, is_error)] }
  if s₁.opts.log_level ≠ some LogLevel.none then
    if is_error then
      { s₁ with log := s₁.log ++ [LogLine.err ("Extension Error: " ++ message)] }
    else
      { s₁ with log := s₁.log ++ [LogLine.info ("Extension Status: " ++ message)] }
  else s₁

/-- The `core_paired` callback registered with the underlying client: resolves
`this._core` with the new core (waking all queued waiters), emits the
`core_paired` facade event, then registers output and zone subscriptions when
the corresponding flags are truthy in the current options; each subscription
callback closure captures the resolved core.  `none` models the crash of the
non-null assertion `this._core!` when no slot exists. -/
def on_core_paired (s : RoonExtension) (newCore : Nat) : Option RoonExtension :=
  match s.slot with
  | none => none
  | some sl =>
      let r := Slot.resolve sl newCore
      some { s with
        slot := some r.1
        resolutions := s.resolutions ++ r.2.1.map (fun w => (w, r.2.2))
        events := s.events ++ [FacadeEvent.core_paired r.2.2]
        outputsSub :=
          if s.opts.subscribe_outputs = some true then s.outputsSub ++ [r.2.2]
          else s.outputsSub
        zonesSub :=
          if s.opts.subscribe_zones = some true then s.zonesSub ++ [r.2.2]
          else s.zonesSub }

/-- The `core_unpaired` callback: emits the `core_unpaired` facade event with
the outgoing core, disposes the held `TransientObject` and replaces it with a
fresh empty one.  `none` models the crash of `this._core!` when no slot
exists. -/
def on_core_unpaired (s : RoonExtension) (oldCore : Nat) : Option RoonExtension :=
  match s.slot with
  | none => none
  | some _ =>
      some { s with
        events := s.events ++ [FacadeEvent.core_unpaired oldCore]
        slot := some (Slot.empty []) }

/-- Delivery of one zone update on the subscription whose callback closure
captured core `c`: the closure `(r, b) => this.emit("subscribe_zones", core, r, b)`
emits exactly one `subscribe_zones` event carrying that captured core.  A
delivery on a subscription that was never registered is impossible and leaves
the state unchanged. -/
def deliver_zones_update (s : RoonExtension) (c response body : Nat) :
    RoonExtension :=
  if c ∈ s.zonesSub then
    { s with events := s.events ++ [FacadeEvent.subscribe_zones c response body] }
  else s

/-- Delivery of one output update on the subscription whose callback closure
captured core `c`, analogous to `deliver_zones_update`. -/
def deliver_outputs_update (s : RoonExtension) (c response body : Nat) :
    RoonExtension :=
  if c ∈ s.outputsSub then
    { s with events := s.events ++ [FacadeEvent.subscribe_outputs c response body] }
  else s

/-! Concrete example values used by the witness theorems. -/

/-- Options with every optional field absent. -/
def o0 : RoonExtensionOptions :=
  { description := 0, log_level := none, RoonApiBrowse := none
    RoonApiImage := none, RoonApiTransport := none
    subscribe_outputs := none, subscribe_zones := none }

/-- Options requesting the automatic zone subscription. -/
def oZones : RoonExtensionOptions := { o0 with subscribe_zones := some true }

/-- Options requesting both automatic subscriptions. -/
def oBoth : RoonExtensionOptions :=
  { o0 with subscribe_zones := some true, subscribe_outputs := some true }

/-- A partial options object with every key absent. -/
def pNone : PartialOptions :=
  { description := none, log_level := none, RoonApiBrowse := none
    RoonApiImage := none, RoonApiTransport := none
    subscribe_outputs := none, subscribe_zones := none }

/-- A partial options object that only sets `subscribe_zones: true`. -/
def pZones : PartialOptions := { pNone with subscribe_zones := some (some true) }

/-- A started instance (discovery begun, no pairing yet). -/
def exStarted : RoonExtension := { construct o0 with slot := some (Slot.empty []) }

/-- A started instance with both subscription flags enabled. -/
def exStartedBoth : RoonExtension :=
  { construct oBoth with slot := some (Slot.empty []) }

/-- C7: on an instance where neither start_discovery nor ws_connect has been
called (no pairing slot), get_core throws the not-started error synchronously
instead of suspending. -/
theorem C7_get_core_not_started (s : RoonExtension) (h : s.slot = none) :
    get_core s = Except.error ExtError.notStarted := by
  simp [get_core, ensureStarted, h]

theorem C7_witness :
    (construct o0).slot = none ∧
    get_core (construct o0) = Except.error ExtError.notStarted :=
  ⟨rfl, C7_get_core_not_started (construct o0) rfl⟩

/-- C3: if either subscription flag is truthy in the constructor options, the
constructed configuration has the transport requirement forced to required,
whatever transport value was supplied; otherwise the transport requirement is
left exactly as supplied. -/
theorem C3_construct_transport (o : RoonExtensionOptions) :
    ((o.subscribe_outputs = some true ∨ o.subscribe_zones = some true) →
      (construct o).opts.RoonApiTransport = some RoonServiceRequired.required) ∧
    (¬(o.subscribe_outputs = some true ∨ o.subscribe_zones = some true) →
      (construct o).opts.RoonApiTransport = o.RoonApiTransport) := by
  by_cases h1 : o.subscribe_outputs = some true <;>
    by_cases h2 : o.subscribe_zones = some true <;>
      simp [construct, h1, h2]

theorem C3_witness :
    (oZones.subscribe_outputs = some true ∨ oZones.subscribe_zones = some true) ∧
    (construct oZones).opts.RoonApiTransport = some RoonServiceRequired.required :=
  ⟨Or.inr rfl, (C3_construct_transport oZones).1 (Or.inr rfl)⟩

/-- C6: update_options throws after discovery or connect has started; before
either it merges the supplied fields into the configuration, supplied fields
overwriting and unsupplied fields preserved, touching nothing else. -/
theorem C6_update_options (s : RoonExtension) (p : PartialOptions) :
    (∀ sl, s.slot = some sl →
      update_options s p = Except.error ExtError.updateAfterStart) ∧
    (s.slot = none →
      ∃ s₁, update_options s p = Except.ok s₁ ∧ s₁.slot = s.slot ∧
        s₁.opts.description = p.description.getD s.opts.description ∧
        s₁.opts.log_level = p.log_level.getD s.opts.log_level ∧
        s₁.opts.RoonApiBrowse = p.RoonApiBrowse.getD s.opts.RoonApiBrowse ∧
        s₁.opts.RoonApiImage = p.RoonApiImage.getD s.opts.RoonApiImage ∧
        s₁.opts.RoonApiTransport = p.RoonApiTransport.getD s.opts.RoonApiTransport ∧
        s₁.opts.subscribe_outputs =
          p.subscribe_outputs.getD s.opts.subscribe_outputs ∧
        s₁.opts.subscribe_zones = p.subscribe_zones.getD s.opts.subscribe_zones) := by
  constructor
  · intro sl hsl
    simp [update_options, hsl]
  · intro hn
    refine ⟨{ s with opts := mergeOptions s.opts p }, ?_, rfl, rfl, rfl, rfl,
      rfl, rfl, rfl, rfl⟩
    simp [update_options, hn]

theorem C6_witness :
    (construct o0).slot = none ∧
    (∃ s₁, update_options (construct o0) pZones = Except.ok s₁ ∧
      s₁.slot = (construct o0).slot ∧
      s₁.opts.description =
        pZones.description.getD (construct o0).opts.description ∧
      s₁.opts.log_level = pZones.log_level.getD (construct o0).opts.log_level ∧
      s₁.opts.RoonApiBrowse =
        pZones.RoonApiBrowse.getD (construct o0).opts.RoonApiBrowse ∧
      s₁.opts.RoonApiImage =
        pZones.RoonApiImage.getD (construct o0).opts.RoonApiImage ∧
      s₁.opts.RoonApiTransport =
        pZones.RoonApiTransport.getD (construct o0).opts.RoonApiTransport ∧
      s₁.opts.subscribe_outputs =
        pZones.subscribe_outputs.getD (construct o0).opts.subscribe_outputs ∧
      s₁.opts.subscribe_zones =
        pZones.subscribe_zones.getD (construct o0).opts.subscribe_zones) :=
  ⟨rfl, (C6_update_options (construct o0) pZones).2 rfl⟩

/-- C5: on a fresh instance either start operation succeeds, and afterwards a
second call to either start_discovery or ws_connect throws the synchronous
already-started error: both operations share the one-shot guard. -/
theorem C5_start_once (s : RoonExtension) (ps ps₂ : List PSvc) (w w₂ : Nat)
    (h : s.slot = none) :
    (∃ s₁, start_discovery s ps = Except.ok s₁ ∧
      start_discovery s₁ ps₂ = Except.error ExtError.alreadyStarted ∧
      ws_connect s₁ w₂ ps₂ = Except.error ExtError.alreadyStarted) ∧
    (∃ s₁, ws_connect s w ps = Except.ok s₁ ∧
      start_discovery s₁ ps₂ = Except.error ExtError.alreadyStarted ∧
      ws_connect s₁ w₂ ps₂ = Except.error ExtError.alreadyStarted) := by
  constructor
  · refine ⟨{ s with
        slot := some (Slot.empty []),
        initCalls := s.initCalls ++ [initializeServices s.opts ps] }, ?_, ?_, ?_⟩
    · simp [start_discovery, instantiateCore, h]
    · simp [start_discovery, instantiateCore]
    · simp [ws_connect, instantiateCore]
  · refine ⟨{ s with
        slot := some (Slot.empty []),
        initCalls := s.initCalls ++ [initializeServices s.opts ps],
        wsCalls := s.wsCalls ++ [w] }, ?_, ?_, ?_⟩
    · simp [ws_connect, instantiateCore, h]
    · simp [start_discovery, instantiateCore]
    · simp [ws_connect, instantiateCore]

theorem C5_witness :
    (construct o0).slot = none ∧
    ((∃ s₁, start_discovery (construct o0) [] = Except.ok s₁ ∧
      start_discovery s₁ [] = Except.error ExtError.alreadyStarted ∧
      ws_connect s₁ 0 [] = Except.error ExtError.alreadyStarted) ∧
    (∃ s₁, ws_connect (construct o0) 9 [] = Except.ok s₁ ∧
      start_discovery s₁ [] = Except.error ExtError.alreadyStarted ∧
      ws_connect s₁ 0 [] = Except.error ExtError.alreadyStarted)) :=
  ⟨rfl, C5_start_once (construct o0) [] [] 9 0 rfl⟩

/-- C1: on a started instance before any pairing, get_core suspends (returns a
pending promise); when the core_paired callback fires with core c1, every
previously suspended waiter and the new one are resolved with c1, the slot is
filled with c1, and any get_core issued afterwards resolves immediately with
c1 while leaving the slot filled with c1. -/
theorem C1_get_core_pairing (s : RoonExtension) (ws : List Nat) (c1 : Nat)
    (h : s.slot = some (Slot.empty ws)) :
    ∃ s₁, get_core s = Except.ok (s₁, GetCoreResult.pending s.nextWaiter) ∧
      ∃ s₂, on_core_paired s₁ c1 = some s₂ ∧
        (∀ w ∈ ws, (w, c1) ∈ s₂.resolutions) ∧
        (s.nextWaiter, c1) ∈ s₂.resolutions ∧
        s₂.slot = some (Slot.filled c1) ∧
        ∃ s₃, get_core s₂ = Except.ok (s₃, GetCoreResult.resolvedWith c1) ∧
          s₃.slot = some (Slot.filled c1) := by
  refine ⟨{ s with
      slot := some (Slot.empty (ws ++ [s.nextWaiter])),
      nextWaiter := s.nextWaiter + 1 }, ?_, ?_⟩
  · simp [get_core, ensureStarted, h, Slot.getObject]
  · refine ⟨_, rfl, ?_, ?_, rfl, ⟨_, rfl, rfl⟩⟩
    · intro w hw
      exact List.mem_append_right _
        (List.mem_map_of_mem _ (List.mem_append_left _ hw))
    · exact List.mem_append_right _
        (List.mem_map_of_mem _ (List.mem_append_right _ (List.mem_singleton_self _)))

theorem C1_witness :
    exStarted.slot = some (Slot.empty []) ∧
    ∃ s₁, get_core exStarted =
        Except.ok (s₁, GetCoreResult.pending exStarted.nextWaiter) ∧
      ∃ s₂, on_core_paired s₁ 7 = some s₂ ∧
        (∀ w ∈ ([] : List Nat), (w, 7) ∈ s₂.resolutions) ∧
        (exStarted.nextWaiter, 7) ∈ s₂.resolutions ∧
        s₂.slot = some (Slot.filled 7) ∧
        ∃ s₃, get_core s₂ = Except.ok (s₃, GetCoreResult.resolvedWith 7) ∧
          s₃.slot = some (Slot.filled 7) :=
  ⟨rfl, C1_get_core_pairing exStarted [] 7 rfl⟩

/-- C2: when the core_unpaired callback fires on a started instance, the
facade emits a core_unpaired event carrying the outgoing core (appended to the
event trace) and replaces the pairing slot with a fresh empty one; a get_core
call issued after the unpair suspends, and whatever it returns is never an
immediate resolution with the stale core. -/
theorem C2_core_unpaired (s : RoonExtension) (sl : Slot) (old : Nat)
    (h : s.slot = some sl) :
    ∃ s₁, on_core_unpaired s old = some s₁ ∧
      s₁.events = s.events ++ [FacadeEvent.core_unpaired old] ∧
      s₁.slot = some (Slot.empty []) ∧
      (∃ s₂, get_core s₁ = Except.ok (s₂, GetCoreResult.pending s₁.nextWaiter)) ∧
      ∀ r s₃, get_core s₁ = Except.ok (s₃, r) →
        r ≠ GetCoreResult.resolvedWith old := by
  refine ⟨{ s with
      events := s.events ++ [FacadeEvent.core_unpaired old],
      slot := some (Slot.empty []) }, ?_, rfl, rfl, ⟨_, rfl⟩, ?_⟩
  · simp [on_core_unpaired, h]
  · intro r s₃ hr
    have h4 : GetCoreResult.pending s.nextWaiter = r :=
      congrArg Prod.snd (Except.ok.inj hr)
    rw [← h4]
    intro hc
    exact GetCoreResult.noConfusion hc

theorem C2_witness :
    exStarted.slot = some (Slot.empty []) ∧
    ∃ s₁, on_core_unpaired exStarted 7 = some s₁ ∧
      s₁.events = exStarted.events ++ [FacadeEvent.core_unpaired 7] ∧
      s₁.slot = some (Slot.empty []) ∧
      (∃ s₂, get_core s₁ = Except.ok (s₂, GetCoreResult.pending s₁.nextWaiter)) ∧
      ∀ r s₃, get_core s₁ = Except.ok (s₃, r) →
        r ≠ GetCoreResult.resolvedWith 7 :=
  ⟨rfl, C2_core_unpaired exStarted (Slot.empty []) 7 rfl⟩

/-- C8: set_status always forwards the exact message and error flag to the
status-publishing helper; exactly one log line is written precisely when
log_level is not `none`, on the error channel when is_error is true and on the
info channel otherwise; the function is total (never throws). -/
theorem C8_set_status (s : RoonExtension) (m : String) (e : Bool) :
    (set_status s m e).statusCalls = s.statusCalls ++ [(m, e)] ∧
    (s.opts.log_level ≠ some LogLevel.none →
      (set_status s m e).log = s.log ++
        [if e then LogLine.err ("Extension Error: " ++ m)
         else LogLine.info ("Extension Status: " ++ m)]) ∧
    (s.opts.log_level = some LogLevel.none → (set_status s m e).log = s.log) := by
  by_cases hl : s.opts.log_level = some LogLevel.none <;> cases e <;>
    simp [set_status, hl]

theorem C8_witness :
    (construct o0).opts.log_level ≠ some LogLevel.none ∧
    (set_status (construct o0) "hi" false).log = (construct o0).log ++
      [if false then LogLine.err ("Extension Error: " ++ "hi")
       else LogLine.info ("Extension Status: " ++ "hi")] :=
  ⟨by decide, (C8_set_status (construct o0) "hi" false).2.1 (by decide)⟩

/-- C9: after a pairing with core c on a started instance, if the
corresponding subscription flag is enabled, a subscription capturing c is
registered, and each update delivered on it appends exactly one matching
facade event carrying that same core, in delivery order; stated for
subscribe_zones and analogously for subscribe_outputs. -/
theorem C9_subscription_events (s : RoonExtension) (ws : List Nat)
    (c r₁ b₁ r₂ b₂ : Nat) (h : s.slot = some (Slot.empty ws)) :
    ∃ s₁, on_core_paired s c = some s₁ ∧
      (s.opts.subscribe_zones = some true →
        s₁.zonesSub = s.zonesSub ++ [c] ∧
        (deliver_zones_update (deliver_zones_update s₁ c r₁ b₁) c r₂ b₂).events =
          s₁.events ++ [FacadeEvent.subscribe_zones c r₁ b₁,
            FacadeEvent.subscribe_zones c r₂ b₂]) ∧
      (s.opts.subscribe_outputs = some true →
        s₁.outputsSub = s.outputsSub ++ [c] ∧
        (deliver_outputs_update (deliver_outputs_update s₁ c r₁ b₁) c r₂ b₂).events =
          s₁.events ++ [FacadeEvent.subscribe_outputs c r₁ b₁,
            FacadeEvent.subscribe_outputs c r₂ b₂]) := by
  refine ⟨{ s with
      slot := some (Slot.filled c),
      resolutions := s.resolutions ++ ws.map (fun w => (w, c)),
      events := s.events ++ [FacadeEvent.core_paired c],
      outputsSub := if s.opts.subscribe_outputs = some true
        then s.outputsSub ++ [c] else s.outputsSub,
      zonesSub := if s.opts.subscribe_zones = some true
        then s.zonesSub ++ [c] else s.zonesSub }, ?_, ?_, ?_⟩
  · simp [on_core_paired, h, Slot.resolve]
  · intro hz
    refine ⟨by simp [hz], ?_⟩
    simp [deliver_zones_update, hz]
  · intro ho
    refine ⟨by simp [ho], ?_⟩
    simp [deliver_outputs_update, ho]

theorem C9_witness :
    exStartedBoth.slot = some (Slot.empty []) ∧
    ∃ s₁, on_core_paired exStartedBoth 3 = some s₁ ∧
      (exStartedBoth.opts.subscribe_zones = some true →
        s₁.zonesSub = exStartedBoth.zonesSub ++ [3] ∧
        (deliver_zones_update (deliver_zones_update s₁ 3 1 2) 3 4 5).events =
          s₁.events ++ [FacadeEvent.subscribe_zones 3 1 2,
            FacadeEvent.subscribe_zones 3 4 5]) ∧
      (exStartedBoth.opts.subscribe_outputs = some true →
        s₁.outputsSub = exStartedBoth.outputsSub ++ [3] ∧
        (deliver_outputs_update (deliver_outputs_update s₁ 3 1 2) 3 4 5).events =
          s₁.events ++ [FacadeEvent.subscribe_outputs 3 1 2,
            FacadeEvent.subscribe_outputs 3 4 5]) :=
  ⟨rfl, C9_subscription_events exStartedBoth [] 3 1 2 4 5 rfl⟩

/-- C10: initializeServices hands the underlying client the caller's
provided-services array with exactly one element appended at the end, the
status-publishing service, all earlier elements unchanged and in order; a
successful start records exactly that init_services call. -/
theorem C10_provided_services (s : RoonExtension) (ps : List PSvc)
    (h : s.slot = none) :
    (initializeServices s.opts ps).provided_services = ps ++ [PSvc.status] ∧
    ∃ s₁, start_discovery s ps = Except.ok s₁ ∧
      s₁.initCalls = s.initCalls ++ [initializeServices s.opts ps] := by
  refine ⟨rfl, ⟨{ s with
      slot := some (Slot.empty []),
      initCalls := s.initCalls ++ [initializeServices s.opts ps] }, ?_, rfl⟩⟩
  simp [start_discovery, instantiateCore, h]

theorem C10_witness :
    (construct o0).slot = none ∧
    ((initializeServices (construct o0).opts [PSvc.extra 4]).provided_services =
      [PSvc.extra 4] ++ [PSvc.status] ∧
    ∃ s₁, start_discovery (construct o0) [PSvc.extra 4] = Except.ok s₁ ∧
      s₁.initCalls = (construct o0).initCalls ++
        [initializeServices (construct o0).opts [PSvc.extra 4]]) :=
  ⟨rfl, C10_provided_services (construct o0) [PSvc.extra 4] rfl⟩

/-- Membership in the required list built by requireService: the service is
added exactly when the setting is the literal required. -/
theorem mem_requireService_fst (setting : Option RoonServiceRequired)
    (svc x : Svc) (req opt : List Svc) :
    x ∈ (requireService setting svc req opt).1 ↔
      x ∈ req ∨ (setting = some RoonServiceRequired.required ∧ x = svc) := by
  rcases setting with _ | st
  · simp [requireService]
  · cases st <;> simp [requireService]

/-- The transport service class lands in the required list handed to
init_services exactly when the configuration requires it. -/
theorem transport_mem_required (o : RoonExtensionOptions) (ps : List PSvc) :
    Svc.RoonApiTransport ∈ (initializeServices o ps).required_services ↔
      o.RoonApiTransport = some RoonServiceRequired.required := by
  simp [initializeServices, mem_requireService_fst]

/-- C4 counterexample: construct with no flags and no transport setting, then
update_options sets subscribe_zones to true before start; the merged
configuration holds the flag, yet the subsequent start_discovery passes an
init_services argument whose required_services list is empty: the transport
service class is not placed in it. -/
theorem C4_counterexample :
    (update_options (construct o0) pZones).map (fun s => s.opts.subscribe_zones) =
      Except.ok (some true) ∧
    ((update_options (construct o0) pZones).bind
        (fun s₁ => start_discovery s₁ [])).map (fun s => s.initCalls) =
      Except.ok [(⟨[], [], [PSvc.status]⟩ : InitArgs)] := by
  constructor <;> rfl

/-- C4 amended: before start, update_options merges the subscription flags and
the transport setting as supplied, but does not force the transport
requirement; a subsequent start_discovery records an init_services call whose
required_services contains the transport service class if and only if the
merged configuration sets RoonApiTransport to required. -/
theorem C4_update_options_transport (s : RoonExtension) (p : PartialOptions)
    (h : s.slot = none) :
    ∃ s₁, update_options s p = Except.ok s₁ ∧
      s₁.opts.subscribe_outputs =
        p.subscribe_outputs.getD s.opts.subscribe_outputs ∧
      s₁.opts.subscribe_zones = p.subscribe_zones.getD s.opts.subscribe_zones ∧
      s₁.opts.RoonApiTransport = p.RoonApiTransport.getD s.opts.RoonApiTransport ∧
      ∀ ps, (Svc.RoonApiTransport ∈ (initializeServices s₁.opts ps).required_services ↔
          s₁.opts.RoonApiTransport = some RoonServiceRequired.required) ∧
        ∃ s₂, start_discovery s₁ ps = Except.ok s₂ ∧
          s₂.initCalls = s₁.initCalls ++ [initializeServices s₁.opts ps] := by
  refine ⟨{ s with opts := mergeOptions s.opts p }, ?_, rfl, rfl, rfl, ?_⟩
  · simp [update_options, h]
  · intro ps
    refine ⟨transport_mem_required _ ps, ⟨{ s with
        opts := mergeOptions s.opts p,
        slot := some (Slot.empty []),
        initCalls := s.initCalls ++
          [initializeServices (mergeOptions s.opts p) ps] }, ?_, rfl⟩⟩
    simp [start_discovery, instantiateCore, h]

theorem C4_witness :
    (construct o0).slot = none ∧
    ∃ s₁, update_options (construct o0) pZones = Except.ok s₁ ∧
      s₁.opts.subscribe_outputs =
        pZones.subscribe_outputs.getD (construct o0).opts.subscribe_outputs ∧
      s₁.opts.subscribe_zones =
        pZones.subscribe_zones.getD (construct o0).opts.subscribe_zones ∧
      s₁.opts.RoonApiTransport =
        pZones.RoonApiTransport.getD (construct o0).opts.RoonApiTransport ∧
      ∀ ps, (Svc.RoonApiTransport ∈
            (initializeServices s₁.opts ps).required_services ↔
          s₁.opts.RoonApiTransport = some RoonServiceRequired.required) ∧
        ∃ s₂, start_discovery s₁ ps = Except.ok s₂ ∧
          s₂.initCalls = s₁.initCalls ++ [initializeServices s₁.opts ps] :=
  ⟨rfl, C4_update_options_transport (construct o0) pZones rfl⟩
